import Mathlib

set_option maxRecDepth 4000

/-!
Shallow embedding of src/src/ply-video-buffer.c (the framebuffer core of the
plymouth repository) and proofs about it.

Modelling conventions:
* C `double` arithmetic is modelled as exact rational arithmetic (`ℚ`).  All
  concrete inputs used below keep every intermediate value exactly
  representable, so the rational model agrees with IEEE doubles there.
* Machine integers are modelled as `Nat` with explicit masks where the C code
  performs a narrowing conversion (e.g. a store into a `uint8_t` is `&&& 0xff`).
* Pointers into the shadow buffer and the mmap'ed device region are modelled as
  total functions `Int → Nat` (index to 32-bit word, resp. byte address to
  byte); `memcpy` into the mapped region assumes a little-endian byte order,
  matching the platforms the code targets.
* `msync` success/failure is abstracted as an explicit `Bool` parameter that is
  threaded into `flush`; the memory writes of `copy_to_device` happen before
  the sync, exactly as in the C code.
* `PlyVideoBufferArea` fields are `Int` (the C code iterates them with `long`
  and asserts `width >= 0`, `height >= 0`).
-/

/-- Rectangle type for `PlyVideoBufferArea`.  Modelled from the spec: the
struct itself lives in ply-video-buffer.h, which is not under src/; the spec
describes it as a rectangle (x, y, width, height). -/
structure PlyVideoBufferArea where
  x : Int
  y : Int
  width : Int
  height : Int
deriving DecidableEq, Repr

/-- Membership of a pixel coordinate in a rectangle. -/
def areaContains (a : PlyVideoBufferArea) (px py : Int) : Prop :=
  a.x ≤ px ∧ px < a.x + a.width ∧ a.y ≤ py ∧ py < a.y + a.height

instance (a : PlyVideoBufferArea) (px py : Int) : Decidable (areaContains a px py) := by
  unfold areaContains
  infer_instance

/-- State of `struct _PlyVideoBuffer` (the fields the drawing and flushing
code uses; the device fd and device name play no role in the claims). -/
structure PlyVideoBuffer where
  shadow_buffer : Int → Nat
  map_address : Int → Nat
  red_bit_position : Nat
  green_bit_position : Nat
  blue_bit_position : Nat
  alpha_bit_position : Nat
  bits_for_red : Nat
  bits_for_green : Nat
  bits_for_blue : Nat
  bits_for_alpha : Nat
  bits_per_pixel : Nat
  bytes_per_pixel : Nat
  area : PlyVideoBufferArea
  area_to_flush : PlyVideoBufferArea
  is_paused : Bool

/-- Modelled from the spec: the macro `PLY_VIDEO_BUFFER_COLOR_TO_PIXEL_VALUE`
is defined in ply-video-buffer.h, which is not under src/.  Per the spec it
re-quantizes a 0.0–1.0 channel back to 0–255 (clamping) and the four channels
are packed into ARGB32 (alpha 24–31, red 16–23, green 8–15, blue 0–7).
Quantization truncates toward zero as the C cast to `uint8_t` does; after
clamping to a nonnegative value truncation coincides with `Int.floor`. -/
def quantizeChannel (c : ℚ) : Nat :=
  if c * 255 ≤ 0 then 0
  else if 255 ≤ c * 255 then 255
  else (⌊c * 255⌋).toNat

/-- Modelled from the spec: packing of four 0.0–1.0 channels into a canonical
ARGB32 pixel (see `quantizeChannel`). -/
def PLY_VIDEO_BUFFER_COLOR_TO_PIXEL_VALUE (r g b a : ℚ) : Nat :=
  (quantizeChannel a <<< 24) ||| (quantizeChannel r <<< 16) |||
    (quantizeChannel g <<< 8) ||| quantizeChannel b

/-- C `ply_video_buffer_pixel_value_to_device_pixel_value` (lines 207–229).
Each channel is extracted from the canonical pixel into a `uint8_t` (hence the
`&&& 0xff`; for alpha the mask models the narrowing store into `a`), shifted
right by `8 - width` and then placed at its device bit position. -/
def ply_video_buffer_pixel_value_to_device_pixel_value
    (buffer : PlyVideoBuffer) (pixel_value : Nat) : Nat :=
  let a := ((pixel_value >>> 24) &&& 0xff) >>> (8 - buffer.bits_for_alpha)
  let r := ((pixel_value >>> 16) &&& 0xff) >>> (8 - buffer.bits_for_red)
  let g := ((pixel_value >>> 8) &&& 0xff) >>> (8 - buffer.bits_for_green)
  let b := (pixel_value &&& 0xff) >>> (8 - buffer.bits_for_blue)
  (a <<< buffer.alpha_bit_position) ||| (r <<< buffer.red_bit_position) |||
    (g <<< buffer.green_bit_position) ||| (b <<< buffer.blue_bit_position)

/-- C `blend_two_pixel_values` (lines 259–282).  Note the source extracts the
second operand's red channel from bit 26 (`pixel_value_2 >> 26`), not bit 16;
the embedding reproduces this faithfully.  Doubles are modelled as rationals. -/
def blend_two_pixel_values (pixel_value_1 pixel_value_2 : Nat) : Nat :=
  let alpha : ℚ := ((pixel_value_1 >>> 24 : Nat) : ℚ) / 255
  let red : ℚ := (((pixel_value_1 >>> 16) &&& 0xff : Nat) : ℚ) / 255
  let green : ℚ := (((pixel_value_1 >>> 8) &&& 0xff : Nat) : ℚ) / 255
  let blue : ℚ := ((pixel_value_1 &&& 0xff : Nat) : ℚ) / 255
  let alpha_2 : ℚ := ((pixel_value_2 >>> 24 : Nat) : ℚ) / 255
  let red_2 : ℚ := (((pixel_value_2 >>> 26) &&& 0xff : Nat) : ℚ) / 255
  let green_2 : ℚ := (((pixel_value_2 >>> 8) &&& 0xff : Nat) : ℚ) / 255
  let blue_2 : ℚ := ((pixel_value_2 &&& 0xff : Nat) : ℚ) / 255
  let red' := red + red_2 * (1 - alpha)
  let green' := green + green_2 * (1 - alpha)
  let blue' := blue + blue_2 * (1 - alpha)
  let alpha' := alpha + alpha_2 * (1 - alpha)
  PLY_VIDEO_BUFFER_COLOR_TO_PIXEL_VALUE red' green' blue' alpha'

/-- C `make_pixel_value_translucent` (lines 284–301). -/
def make_pixel_value_translucent (pixel_value : Nat) (opacity : ℚ) : Nat :=
  let alpha : ℚ := ((pixel_value >>> 24 : Nat) : ℚ) / 255
  let red : ℚ := (((pixel_value >>> 16) &&& 0xff : Nat) : ℚ) / 255
  let green : ℚ := (((pixel_value >>> 8) &&& 0xff : Nat) : ℚ) / 255
  let blue : ℚ := ((pixel_value &&& 0xff : Nat) : ℚ) / 255
  PLY_VIDEO_BUFFER_COLOR_TO_PIXEL_VALUE (red * opacity) (green * opacity)
    (blue * opacity) (alpha * opacity)

/-- C `ply_video_buffer_get_value_at_pixel` (lines 231–243): the shadow buffer
is read at flat index `y * area.width + x`.  `W` is `buffer->area.width`. -/
def getValueAtPixel (W : Int) (shadow : Int → Nat) (x y : Int) : Nat :=
  shadow (y * W + x)

/-- C `ply_video_buffer_set_value_at_pixel` (lines 245–257): the shadow buffer
is written at flat index `y * area.width + x`. -/
def setValueAtPixel (W : Int) (shadow : Int → Nat) (x y : Int) (v : Nat) :
    Int → Nat :=
  fun i => if i = y * W + x then v else shadow i

/-- C `ply_video_buffer_blend_value_at_pixel` (lines 303–315). -/
def blendValueAtPixel (W : Int) (shadow : Int → Nat) (x y : Int) (v : Nat) :
    Int → Nat :=
  setValueAtPixel W shadow x y
    (blend_two_pixel_values v (getValueAtPixel W shadow x y))

/-- Inner (column) loop of `ply_video_buffer_set_area_to_pixel_value`:
`n` is the number of remaining iterations of
`for (column = area->x; column < area->x + area->width; column++)`. -/
def setAreaRow (W : Int) (shadow : Int → Nat) (row x : Int) (n : Nat)
    (v : Nat) : Int → Nat :=
  match n with
  | 0 => shadow
  | Nat.succ m => setAreaRow W (setValueAtPixel W shadow x row v) row (x + 1) m v

/-- Outer (row) loop of `ply_video_buffer_set_area_to_pixel_value`. -/
def setAreaRows (W : Int) (shadow : Int → Nat) (y x : Int) (cols nrows : Nat)
    (v : Nat) : Int → Nat :=
  match nrows with
  | 0 => shadow
  | Nat.succ m => setAreaRows W (setAreaRow W shadow y x cols v) (y + 1) x cols m v

/-- C `ply_video_buffer_set_area_to_pixel_value` (lines 317–333).  The loops
run `area.height` times (outer) and `area.width` times (inner); a nonpositive
bound means zero iterations, hence `Int.toNat`.  Only the shadow buffer is
touched. -/
def ply_video_buffer_set_area_to_pixel_value (buffer : PlyVideoBuffer)
    (area : PlyVideoBufferArea) (pixel_value : Nat) : PlyVideoBuffer :=
  { buffer with
    shadow_buffer := setAreaRows buffer.area.width buffer.shadow_buffer
      area.y area.x area.width.toNat area.height.toNat pixel_value }

/-- Inner (column) loop of `ply_video_buffer_blend_area_with_pixel_value`. -/
def blendAreaRow (W : Int) (shadow : Int → Nat) (row x : Int) (n : Nat)
    (v : Nat) : Int → Nat :=
  match n with
  | 0 => shadow
  | Nat.succ m => blendAreaRow W (blendValueAtPixel W shadow x row v) row (x + 1) m v

/-- Outer (row) loop of `ply_video_buffer_blend_area_with_pixel_value`. -/
def blendAreaRows (W : Int) (shadow : Int → Nat) (y x : Int) (cols nrows : Nat)
    (v : Nat) : Int → Nat :=
  match nrows with
  | 0 => shadow
  | Nat.succ m => blendAreaRows W (blendAreaRow W shadow y x cols v) (y + 1) x cols m v

/-- C `ply_video_buffer_blend_area_with_pixel_value` (lines 335–351). -/
def ply_video_buffer_blend_area_with_pixel_value (buffer : PlyVideoBuffer)
    (area : PlyVideoBufferArea) (pixel_value : Nat) : PlyVideoBuffer :=
  { buffer with
    shadow_buffer := blendAreaRows buffer.area.width buffer.shadow_buffer
      area.y area.x area.width.toNat area.height.toNat pixel_value }

/-- C `ply_video_buffer_add_area_to_flush_area` (lines 353–370), as a pure
function of the current flush area and the added area: `MIN` of the origins
and `MAX` of the raw widths/heights. -/
def addAreaToFlushAreaRect (current added : PlyVideoBufferArea) :
    PlyVideoBufferArea :=
  { x := min current.x added.x
    y := min current.y added.y
    width := max current.width added.width
    height := max current.height added.height }

/-- C `ply_video_buffer_add_area_to_flush_area` acting on the buffer state. -/
def ply_video_buffer_add_area_to_flush_area (buffer : PlyVideoBuffer)
    (area : PlyVideoBufferArea) : PlyVideoBuffer :=
  { buffer with area_to_flush := addAreaToFlushAreaRect buffer.area_to_flush area }

/-- The `memcpy (buffer->map_address + offset, &device_pixel_value, len)` of
`ply_video_buffer_copy_to_device`, little-endian.  The C code passes
`buffer->bits_per_pixel` (not `bytes_per_pixel`) as the length, so for a
32-bpp device 32 bytes are copied from a 4-byte object; the bytes past the
object are undefined in C and are modelled here as the zero bytes obtained by
shifting the value further right. -/
def memcpyBytes (map : Int → Nat) (offset : Int) (value : Nat) (len : Nat) :
    Int → Nat :=
  fun i =>
    if offset ≤ i ∧ i < offset + len then
      (value >>> (8 * (i - offset).toNat)) &&& 0xff
    else map i

/-- Inner (column) loop of `ply_video_buffer_copy_to_device` (lines 389–408).
Note the shadow buffer is read at `width * row + column` where `width` is the
function argument (the flush-area width), not `buffer->area.width`, and the
`memcpy` length is `buffer->bits_per_pixel`. -/
def copyToDeviceColumns (buffer : PlyVideoBuffer) (map : Int → Nat)
    (width row x : Int) (n : Nat) : Int → Nat :=
  match n with
  | 0 => map
  | Nat.succ m =>
    let bytes_per_row : Int := buffer.area.width * (buffer.bytes_per_pixel : Int)
    let pixel_value := buffer.shadow_buffer (width * row + x)
    let device_pixel_value :=
      ply_video_buffer_pixel_value_to_device_pixel_value buffer pixel_value
    let offset := row * bytes_per_row + x * (buffer.bytes_per_pixel : Int)
    copyToDeviceColumns buffer
      (memcpyBytes map offset device_pixel_value buffer.bits_per_pixel)
      width row (x + 1) m

/-- Outer (row) loop of `ply_video_buffer_copy_to_device`. -/
def copyToDeviceRows (buffer : PlyVideoBuffer) (map : Int → Nat)
    (width x row : Int) (ncols nrows : Nat) : Int → Nat :=
  match nrows with
  | 0 => map
  | Nat.succ m =>
    copyToDeviceRows buffer (copyToDeviceColumns buffer map width row x ncols)
      width x (row + 1) ncols m

/-- C `ply_video_buffer_copy_to_device` (lines 372–414).  The writes into the
mapped region happen unconditionally; the final `msync` is abstracted by the
`sync_ok` flag, which becomes the boolean result. -/
def ply_video_buffer_copy_to_device (buffer : PlyVideoBuffer)
    (x y width height : Int) (sync_ok : Bool) : Bool × (Int → Nat) :=
  (sync_ok,
    copyToDeviceRows buffer buffer.map_address width x y width.toNat height.toNat)

/-- C `ply_video_buffer_flush` (lines 416–445).  When paused it returns true
immediately; otherwise it copies `area_to_flush` to the device (the dead
`start_offset`/`size` locals of the C code have no effect and are omitted),
returns false on sync failure leaving `area_to_flush` intact, and on success
resets `area_to_flush` to the all-zero rectangle. -/
def ply_video_buffer_flush (buffer : PlyVideoBuffer) (sync_ok : Bool) :
    Bool × PlyVideoBuffer :=
  if buffer.is_paused then (true, buffer)
  else
    let result := ply_video_buffer_copy_to_device buffer
      buffer.area_to_flush.x buffer.area_to_flush.y
      buffer.area_to_flush.width buffer.area_to_flush.height sync_ok
    let buffer' := { buffer with map_address := result.2 }
    if result.1 then (true, { buffer' with area_to_flush := ⟨0, 0, 0, 0⟩ })
    else (false, buffer')

/-- C `ply_video_buffer_pause_updates` (lines 528–534). -/
def ply_video_buffer_pause_updates (buffer : PlyVideoBuffer) : PlyVideoBuffer :=
  { buffer with is_paused := true }

/-- C `ply_video_buffer_unpause_updates` (lines 536–543): clears the paused
flag, then flushes. -/
def ply_video_buffer_unpause_updates (buffer : PlyVideoBuffer) (sync_ok : Bool) :
    Bool × PlyVideoBuffer :=
  ply_video_buffer_flush { buffer with is_paused := false } sync_ok

/-- C conversion of a `double` to `int` truncates toward zero. -/
def cTruncToInt (q : ℚ) : Int :=
  if 0 ≤ q then ⌊q⌋ else ⌈q⌉

/-- `DBL_MIN`, the smallest positive normalized IEEE double. -/
def DBL_MIN : ℚ := 1 / 2 ^ 1022

/-- C `ply_video_buffer_fill_with_color` (lines 604–634).  The guard
`abs (alpha - 1.0) <= DBL_MIN` calls the integer `abs` from stdlib.h, so the
double `alpha - 1.0` is first truncated to an `int` (`cTruncToInt`), its
absolute value is taken, and that integer is compared against `DBL_MIN`. -/
def ply_video_buffer_fill_with_color (buffer : PlyVideoBuffer)
    (area? : Option PlyVideoBufferArea) (red green blue alpha : ℚ)
    (sync_ok : Bool) : Bool × PlyVideoBuffer :=
  let area := area?.getD buffer.area
  let red := red * alpha
  let green := green * alpha
  let blue := blue * alpha
  let pixel_value := PLY_VIDEO_BUFFER_COLOR_TO_PIXEL_VALUE red green blue alpha
  let buffer' :=
    if (((cTruncToInt (alpha - 1)).natAbs : ℚ)) ≤ DBL_MIN then
      ply_video_buffer_set_area_to_pixel_value buffer area pixel_value
    else
      ply_video_buffer_blend_area_with_pixel_value buffer area pixel_value
  let buffer'' := ply_video_buffer_add_area_to_flush_area buffer' area
  ply_video_buffer_flush buffer'' sync_ok

/-- A buffer with the canonical 32-bpp device layout (alpha 24, red 16,
green 8, blue 0, 8 bits each), visible area `W × H`, empty flush area,
given shadow contents, and every device byte initially `0x77`. -/
def mkTestBuffer (W H : Int) (shadow : Int → Nat) : PlyVideoBuffer :=
  { shadow_buffer := shadow
    map_address := fun _ => 0x77
    red_bit_position := 16
    green_bit_position := 8
    blue_bit_position := 0
    alpha_bit_position := 24
    bits_for_red := 8
    bits_for_green := 8
    bits_for_blue := 8
    bits_for_alpha := 8
    bits_per_pixel := 32
    bytes_per_pixel := 4
    area := ⟨0, 0, W, H⟩
    area_to_flush := ⟨0, 0, 0, 0⟩
    is_paused := false }

/-- Shadow contents for the C3 test: pixel word 0xAA at flat index 2 and
0xBB at flat index 4, zero elsewhere. -/
def c3Shadow : Int → Nat :=
  fun i => if i = 2 then 0xAA else if i = 4 then 0xBB else 0

/-- 4 × 4 test buffer for C3. -/
def c3Buffer : PlyVideoBuffer := mkTestBuffer 4 4 c3Shadow

/-- 1 × 1 test buffer for C5 whose single shadow pixel is opaque blue. -/
def c5Buffer : PlyVideoBuffer := mkTestBuffer 1 1 (fun _ => 0xFF0000FF)

/-- Paused 8 × 8 test buffer with a pending dirty rectangle, for C9. -/
def c9PausedBuffer : PlyVideoBuffer :=
  { mkTestBuffer 8 8 (fun _ => 0) with
    area_to_flush := ⟨5, 5, 2, 2⟩
    is_paused := true }

/-- 2 × 2 all-zero buffer used by the C4 witness. -/
def c4WitnessBuffer : PlyVideoBuffer := mkTestBuffer 2 2 (fun _ => 0)

/-- Paused 1 × 1 buffer used by the C6 witness. -/
def c6WitnessBuffer : PlyVideoBuffer :=
  { mkTestBuffer 1 1 (fun _ => 0) with is_paused := true }

/-- Unpaused 1 × 1 buffer used by the C7 witness. -/
def c7WitnessBuffer : PlyVideoBuffer := mkTestBuffer 1 1 (fun _ => 0)

/-- Unpaused 1 × 1 buffer used by the C9 witness. -/
def c9WitnessBuffer : PlyVideoBuffer := mkTestBuffer 1 1 (fun _ => 0)

/-- Buffer whose red channel has the given width and device bit offset; the
remaining channels keep the canonical 8-bit descriptors.  Used for the
truncation round-trip property, where the canonical pixel carries the value
only in its red channel. -/
def c8Buffer (w off : Nat) : PlyVideoBuffer :=
  { mkTestBuffer 0 0 (fun _ => 0) with
    bits_for_red := w
    red_bit_position := off }

/-- A flush never changes the shadow buffer (it only writes the device map
and possibly resets the flush area). -/
theorem flush_shadow_eq (buffer : PlyVideoBuffer) (sync_ok : Bool) :
    (ply_video_buffer_flush buffer sync_ok).2.shadow_buffer = buffer.shadow_buffer := by
  unfold ply_video_buffer_flush
  by_cases hp : buffer.is_paused <;> simp [hp] <;> split <;> rfl

theorem DBL_MIN_pos : (0 : ℚ) < DBL_MIN := by
  unfold DBL_MIN
  positivity

theorem DBL_MIN_lt_one : DBL_MIN < 1 := by
  unfold DBL_MIN
  rw [div_lt_one (by positivity)]
  exact one_lt_pow₀ (by norm_num) (by norm_num)

/-- The `abs (alpha - 1.0) <= DBL_MIN` guard of `fill_with_color` holds
exactly when the truncated integer is zero. -/
theorem natCast_le_DBL_MIN_iff (n : ℕ) : ((n : ℚ) ≤ DBL_MIN) ↔ n = 0 := by
  constructor
  · intro h
    by_contra hn
    have h1 : (1 : ℚ) ≤ (n : ℚ) := by
      exact_mod_cast Nat.one_le_iff_ne_zero.mpr hn
    linarith [DBL_MIN_lt_one]
  · intro h
    subst h
    simpa using le_of_lt DBL_MIN_pos

theorem cTrunc_half_sub_one : cTruncToInt (1 / 2 - 1) = 0 := by
  with_unfolding_all decide

theorem cTrunc_one_sub_one : cTruncToInt ((1 : ℚ) - 1) = 0 := by
  with_unfolding_all decide

/-- C1: the dirty-region union is NOT the edge-based bounding box.  With the
current dirty rectangle (0,0,2,2) (from filling A = (0,0,2,2)) and the added
disjoint rectangle B = (5,5,1,1), the code records (0,0,2,2) — min of the
origins but max of the raw widths/heights — which does not contain B's pixel
(5,5) and differs from the smallest rectangle (0,0,6,6) covering both A and
B. -/
theorem add_area_to_flush_area_drops_disjoint_rect :
    addAreaToFlushAreaRect ⟨0, 0, 2, 2⟩ ⟨5, 5, 1, 1⟩ = ⟨0, 0, 2, 2⟩ ∧
    areaContains ⟨5, 5, 1, 1⟩ 5 5 ∧
    ¬ areaContains (addAreaToFlushAreaRect ⟨0, 0, 2, 2⟩ ⟨5, 5, 1, 1⟩) 5 5 ∧
    addAreaToFlushAreaRect ⟨0, 0, 2, 2⟩ ⟨5, 5, 1, 1⟩ ≠ ⟨0, 0, 6, 6⟩ := by
  decide

/-- C2: the two-pixel blend does not extract the destination's red channel
from bits 16–23 (it uses bits 26 and up), so blending a fully transparent
source onto destination 0x00FF0000 loses the red channel and returns
0x00000000 instead of the destination unchanged; blending a transparent
source onto 0x04000000 (red channel zero, but bit 26 set inside the alpha
byte) manufactures a red value of 1. -/
theorem blend_two_pixel_values_asymmetric_red :
    blend_two_pixel_values 0x00000000 0x00FF0000 = 0x00000000 ∧
    blend_two_pixel_values 0x00000000 0x00FF0000 ≠ 0x00FF0000 ∧
    blend_two_pixel_values 0x00000000 0x04000000 = 0x04010000 := by
  with_unfolding_all decide

/-- C3: on a 4-wide buffer with dirty area (x=0, y=1, w=2, h=1) the flush copy
reads the shadow buffer at flat index `flush_width * row + column` = 2 — whose
value is 0xAA — instead of `visible_width * row + column` = 4 — whose value is
0xBB — so device byte 16 (= row 1 * stride 16) receives 0xAA, not 0xBB; and
because the `memcpy` length is `bits_per_pixel` (32) rather than
`bytes_per_pixel` (4), device byte 24, outside the 8 bytes belonging to the
two dirty pixels, is clobbered (0x77 before, 0 after). -/
theorem copy_to_device_wrong_shadow_index_and_write_size :
    ((ply_video_buffer_copy_to_device c3Buffer 0 1 2 1 true).2 16 = 0xAA ∧
     c3Buffer.shadow_buffer (1 * 4 + 0) = 0xBB ∧ (0xAA : Nat) ≠ 0xBB) ∧
    ((ply_video_buffer_copy_to_device c3Buffer 0 1 2 1 true).2 24 = 0 ∧
     c3Buffer.map_address 24 = 0x77 ∧ (0 : Nat) ≠ 0x77) := by
  decide

/-- C5: `fill_with_color` with alpha = 1/2 takes the overwrite branch, not the
blend branch: the stdlib integer `abs` truncates `alpha - 1.0 = -0.5` to the
int 0, which is ≤ DBL_MIN.  On a 1 × 1 buffer whose pixel was opaque blue
0xFF0000FF, the pixel afterwards is exactly the premultiplied fill color
0x7F7F0000, which is not the source-over blend of that color with the old
pixel. -/
theorem fill_with_color_half_alpha_overwrites_not_blends :
    (ply_video_buffer_fill_with_color c5Buffer none 1 0 0 (1 / 2) true).2.shadow_buffer 0
        = 0x7F7F0000 ∧
    (ply_video_buffer_fill_with_color c5Buffer none 1 0 0 (1 / 2) true).2.shadow_buffer 0
        ≠ blend_two_pixel_values 0x7F7F0000 0xFF0000FF := by
  have hcond : (((cTruncToInt ((1 : ℚ) / 2 - 1)).natAbs : ℚ)) ≤ DBL_MIN := by
    rw [cTrunc_half_sub_one]
    simpa using le_of_lt DBL_MIN_pos
  simp only [ply_video_buffer_fill_with_color, Option.getD]
  rw [if_pos hcond]
  rw [flush_shadow_eq]
  constructor
  · with_unfolding_all decide
  · with_unfolding_all decide

/-- C9 counterexample: a flush issued while paused is successful (returns
true) yet leaves the dirty rectangle untouched, so it is not true that after
any successful flush the dirty rectangle is stored as (0,0,0,0). -/
theorem paused_flush_succeeds_without_reset :
    (ply_video_buffer_flush c9PausedBuffer true).1 = true ∧
    (ply_video_buffer_flush c9PausedBuffer true).2.area_to_flush ≠ ⟨0, 0, 0, 0⟩ := by
  decide

/-- One iteration row of the opaque fill writes `v` exactly on the flat
indices `[row * W + x, row * W + x + n)`. -/
theorem setAreaRow_apply (W : Int) (shadow : Int → Nat) (row x : Int) (n : Nat)
    (v : Nat) (i : Int) :
    setAreaRow W shadow row x n v i =
      if row * W + x ≤ i ∧ i < row * W + x + n then v else shadow i := by
  induction n generalizing shadow x with
  | zero =>
    rw [setAreaRow]
    split_ifs with h
    · omega
    · rfl
  | succ m ih =>
    rw [setAreaRow, ih]
    simp only [setValueAtPixel]
    split_ifs <;> first | rfl | omega

/-- The opaque-fill loops either write `v` at an index or leave it alone. -/
theorem setAreaRows_apply_cases (W : Int) (shadow : Int → Nat) (y x : Int)
    (cols nrows : Nat) (v : Nat) (i : Int) :
    setAreaRows W shadow y x cols nrows v i = v ∨
      setAreaRows W shadow y x cols nrows v i = shadow i := by
  induction nrows generalizing shadow y with
  | zero => right; rfl
  | succ m ih =>
    rw [setAreaRows]
    rcases ih (setAreaRow W shadow y x cols v) (y + 1) with h | h
    · left; exact h
    · rw [h, setAreaRow_apply]
      split_ifs
      · left; rfl
      · right; rfl

/-- Every pixel coordinate inside the filled region holds `v` after the
opaque-fill loops. -/
theorem setAreaRows_apply_mem (W : Int) (shadow : Int → Nat) (y x : Int)
    (cols nrows : Nat) (v : Nat) (cx cy : Int) :
    x ≤ cx → cx < x + cols → y ≤ cy → cy < y + nrows →
      setAreaRows W shadow y x cols nrows v (cy * W + cx) = v := by
  induction nrows generalizing shadow y with
  | zero =>
    intro _ _ hy1 hy2
    omega
  | succ m ih =>
    intro hx1 hx2 hy1 hy2
    rw [setAreaRows]
    by_cases hcy : cy = y
    · subst hcy
      have hrow : setAreaRow W shadow cy x cols v (cy * W + cx) = v := by
        rw [setAreaRow_apply, if_pos]
        omega
      rcases setAreaRows_apply_cases W (setAreaRow W shadow cy x cols v) (cy + 1)
          x cols m v (cy * W + cx) with h | h
      · exact h
      · rw [h]
        exact hrow
    · exact ih (setAreaRow W shadow y x cols v) (y + 1) hx1 hx2 (by omega) (by omega)

/-- C4: filling any area with alpha exactly 1 overwrites every pixel of the
area with the packed, alpha-premultiplied color, whatever the shadow buffer
held before.  (With alpha = 1 the guard `abs (alpha - 1.0) <= DBL_MIN`
evaluates the integer `abs` of 0 and takes the overwrite branch, and the
pixel written is the packed value of the premultiplied channels.) -/
theorem fill_with_color_opaque_overwrites (buffer : PlyVideoBuffer)
    (area : PlyVideoBufferArea) (red green blue : ℚ) (sync_ok : Bool) (cx cy : Int)
    (hx1 : area.x ≤ cx) (hx2 : cx < area.x + area.width)
    (hy1 : area.y ≤ cy) (hy2 : cy < area.y + area.height) :
    (ply_video_buffer_fill_with_color buffer (some area) red green blue 1
        sync_ok).2.shadow_buffer (cy * buffer.area.width + cx) =
      PLY_VIDEO_BUFFER_COLOR_TO_PIXEL_VALUE (red * 1) (green * 1) (blue * 1) 1 := by
  have hcond : (((cTruncToInt ((1 : ℚ) - 1)).natAbs : ℚ)) ≤ DBL_MIN := by
    rw [cTrunc_one_sub_one]
    simpa using le_of_lt DBL_MIN_pos
  simp only [ply_video_buffer_fill_with_color, Option.getD]
  rw [if_pos hcond, flush_shadow_eq]
  simp only [ply_video_buffer_add_area_to_flush_area,
    ply_video_buffer_set_area_to_pixel_value]
  exact setAreaRows_apply_mem buffer.area.width buffer.shadow_buffer area.y area.x
    area.width.toNat area.height.toNat _ cx cy hx1 (by omega) hy1 (by omega)

/-- Witness for C4 at a concrete buffer, area, color and pixel. -/
theorem fill_with_color_opaque_overwrites_witness :
    ((⟨0, 0, 2, 2⟩ : PlyVideoBufferArea).x ≤ 1 ∧
     (1 : Int) < (⟨0, 0, 2, 2⟩ : PlyVideoBufferArea).x + (⟨0, 0, 2, 2⟩ : PlyVideoBufferArea).width ∧
     (⟨0, 0, 2, 2⟩ : PlyVideoBufferArea).y ≤ 1 ∧
     (1 : Int) < (⟨0, 0, 2, 2⟩ : PlyVideoBufferArea).y + (⟨0, 0, 2, 2⟩ : PlyVideoBufferArea).height) ∧
    (ply_video_buffer_fill_with_color c4WitnessBuffer (some ⟨0, 0, 2, 2⟩) 1 0 0 1
        true).2.shadow_buffer (1 * c4WitnessBuffer.area.width + 1) =
      PLY_VIDEO_BUFFER_COLOR_TO_PIXEL_VALUE (1 * 1) (0 * 1) (0 * 1) 1 :=
  ⟨⟨by decide, by decide, by decide, by decide⟩,
    fill_with_color_opaque_overwrites c4WitnessBuffer ⟨0, 0, 2, 2⟩ 1 0 0 true 1 1
      (by decide) (by decide) (by decide) (by decide)⟩

/-- A flush never changes the paused flag. -/
theorem flush_is_paused_eq (buffer : PlyVideoBuffer) (sync_ok : Bool) :
    (ply_video_buffer_flush buffer sync_ok).2.is_paused = buffer.is_paused := by
  unfold ply_video_buffer_flush
  by_cases hp : buffer.is_paused <;> simp [hp] <;> split <;> rfl

/-- C6: while the context is paused, flush succeeds immediately and changes
nothing; a fill issued while paused still returns success, leaves the mapped
device memory untouched, grows the flush area exactly by the add-area rule,
and mutates the shadow buffer exactly as the same fill would while unpaused;
and unpause_updates clears the paused flag and then performs the single flush
of the accumulated dirty area. -/
theorem pause_suppresses_flush_and_accumulates (b : PlyVideoBuffer)
    (area : PlyVideoBufferArea) (red green blue alpha : ℚ) (s s' : Bool)
    (hp : b.is_paused = true) :
    ply_video_buffer_flush b s = (true, b) ∧
    (ply_video_buffer_fill_with_color b (some area) red green blue alpha s).1 = true ∧
    (ply_video_buffer_fill_with_color b (some area) red green blue alpha
        s).2.map_address = b.map_address ∧
    (ply_video_buffer_fill_with_color b (some area) red green blue alpha
        s).2.area_to_flush = addAreaToFlushAreaRect b.area_to_flush area ∧
    (ply_video_buffer_fill_with_color b (some area) red green blue alpha
        s).2.shadow_buffer =
      (ply_video_buffer_fill_with_color { b with is_paused := false } (some area)
        red green blue alpha s').2.shadow_buffer ∧
    ply_video_buffer_unpause_updates b s =
      ply_video_buffer_flush { b with is_paused := false } s ∧
    (ply_video_buffer_unpause_updates b s).2.is_paused = false := by
  refine ⟨?_, ?_, ?_, ?_, ?_, rfl, ?_⟩
  · simp [ply_video_buffer_flush, hp]
  · simp only [ply_video_buffer_fill_with_color, Option.getD]
    split_ifs <;>
      simp [ply_video_buffer_flush, ply_video_buffer_add_area_to_flush_area,
        ply_video_buffer_set_area_to_pixel_value,
        ply_video_buffer_blend_area_with_pixel_value, hp]
  · simp only [ply_video_buffer_fill_with_color, Option.getD]
    split_ifs <;>
      simp [ply_video_buffer_flush, ply_video_buffer_add_area_to_flush_area,
        ply_video_buffer_set_area_to_pixel_value,
        ply_video_buffer_blend_area_with_pixel_value, hp]
  · simp only [ply_video_buffer_fill_with_color, Option.getD]
    split_ifs <;>
      simp [ply_video_buffer_flush, ply_video_buffer_add_area_to_flush_area,
        ply_video_buffer_set_area_to_pixel_value,
        ply_video_buffer_blend_area_with_pixel_value, hp]
  · simp only [ply_video_buffer_fill_with_color, Option.getD]
    rw [flush_shadow_eq, flush_shadow_eq]
    split_ifs <;> rfl
  · rw [ply_video_buffer_unpause_updates, flush_is_paused_eq]

/-- Witness for C6 at a concrete paused buffer and fill. -/
theorem pause_suppresses_flush_and_accumulates_witness :
    c6WitnessBuffer.is_paused = true ∧
    (ply_video_buffer_flush c6WitnessBuffer true = (true, c6WitnessBuffer) ∧
     (ply_video_buffer_fill_with_color c6WitnessBuffer (some ⟨0, 0, 1, 1⟩) 0 0 0 1
        true).1 = true ∧
     (ply_video_buffer_fill_with_color c6WitnessBuffer (some ⟨0, 0, 1, 1⟩) 0 0 0 1
        true).2.map_address = c6WitnessBuffer.map_address ∧
     (ply_video_buffer_fill_with_color c6WitnessBuffer (some ⟨0, 0, 1, 1⟩) 0 0 0 1
        true).2.area_to_flush =
       addAreaToFlushAreaRect c6WitnessBuffer.area_to_flush ⟨0, 0, 1, 1⟩ ∧
     (ply_video_buffer_fill_with_color c6WitnessBuffer (some ⟨0, 0, 1, 1⟩) 0 0 0 1
        true).2.shadow_buffer =
       (ply_video_buffer_fill_with_color { c6WitnessBuffer with is_paused := false }
         (some ⟨0, 0, 1, 1⟩) 0 0 0 1 true).2.shadow_buffer ∧
     ply_video_buffer_unpause_updates c6WitnessBuffer true =
       ply_video_buffer_flush { c6WitnessBuffer with is_paused := false } true ∧
     (ply_video_buffer_unpause_updates c6WitnessBuffer true).2.is_paused = false) :=
  ⟨rfl, pause_suppresses_flush_and_accumulates c6WitnessBuffer ⟨0, 0, 1, 1⟩ 0 0 0 1
    true true rfl⟩

/-- C7: when the device synchronization fails, a non-paused flush returns
failure and leaves the dirty area (and the shadow buffer) exactly as they
were, so a later flush covers the same region; on success the dirty area is
reset to the empty all-zero rectangle. -/
theorem flush_failure_preserves_dirty_area (b : PlyVideoBuffer)
    (hp : b.is_paused = false) :
    ((ply_video_buffer_flush b false).1 = false ∧
     (ply_video_buffer_flush b false).2.area_to_flush = b.area_to_flush ∧
     (ply_video_buffer_flush b false).2.shadow_buffer = b.shadow_buffer) ∧
    ((ply_video_buffer_flush b true).1 = true ∧
     (ply_video_buffer_flush b true).2.area_to_flush = ⟨0, 0, 0, 0⟩) := by
  simp [ply_video_buffer_flush, hp, ply_video_buffer_copy_to_device]

/-- Witness for C7 at a concrete unpaused buffer. -/
theorem flush_failure_preserves_dirty_area_witness :
    c7WitnessBuffer.is_paused = false ∧
    (((ply_video_buffer_flush c7WitnessBuffer false).1 = false ∧
      (ply_video_buffer_flush c7WitnessBuffer false).2.area_to_flush =
        c7WitnessBuffer.area_to_flush ∧
      (ply_video_buffer_flush c7WitnessBuffer false).2.shadow_buffer =
        c7WitnessBuffer.shadow_buffer) ∧
     ((ply_video_buffer_flush c7WitnessBuffer true).1 = true ∧
      (ply_video_buffer_flush c7WitnessBuffer true).2.area_to_flush = ⟨0, 0, 0, 0⟩)) :=
  ⟨rfl, flush_failure_preserves_dirty_area c7WitnessBuffer rfl⟩

/-- C9 (amended): after a successful NON-paused flush the dirty rectangle is
stored as the all-zero rectangle; because the add-area rule takes the minimum
of the stored origin and the added origin, the rectangle recorded by the
first draw after such a flush has origin (0,0) for every drawn area with
nonnegative origin (and raw max widths/heights); and for an area drawn away
from the origin the recorded rectangle can fail to cover a drawn pixel, e.g.
pixel (6,6) of area (5,5,2,2). -/
theorem successful_unpaused_flush_resets_then_origin_zero (b : PlyVideoBuffer)
    (hp : b.is_paused = false) :
    ((ply_video_buffer_flush b true).1 = true ∧
     (ply_video_buffer_flush b true).2.area_to_flush = ⟨0, 0, 0, 0⟩) ∧
    (∀ area : PlyVideoBufferArea, 0 ≤ area.x → 0 ≤ area.y →
      (addAreaToFlushAreaRect ⟨0, 0, 0, 0⟩ area).x = 0 ∧
      (addAreaToFlushAreaRect ⟨0, 0, 0, 0⟩ area).y = 0 ∧
      (addAreaToFlushAreaRect ⟨0, 0, 0, 0⟩ area).width = max 0 area.width ∧
      (addAreaToFlushAreaRect ⟨0, 0, 0, 0⟩ area).height = max 0 area.height) ∧
    (areaContains ⟨5, 5, 2, 2⟩ 6 6 ∧
     ¬ areaContains (addAreaToFlushAreaRect ⟨0, 0, 0, 0⟩ ⟨5, 5, 2, 2⟩) 6 6) := by
  refine ⟨?_, ?_, ?_⟩
  · simp [ply_video_buffer_flush, hp, ply_video_buffer_copy_to_device]
  · intro area hx hy
    refine ⟨?_, ?_, rfl, rfl⟩ <;> simp [addAreaToFlushAreaRect] <;> omega
  · decide

/-- Witness for the amended C9 at a concrete unpaused buffer. -/
theorem successful_unpaused_flush_resets_then_origin_zero_witness :
    c9WitnessBuffer.is_paused = false ∧
    (((ply_video_buffer_flush c9WitnessBuffer true).1 = true ∧
      (ply_video_buffer_flush c9WitnessBuffer true).2.area_to_flush = ⟨0, 0, 0, 0⟩) ∧
     (∀ area : PlyVideoBufferArea, 0 ≤ area.x → 0 ≤ area.y →
       (addAreaToFlushAreaRect ⟨0, 0, 0, 0⟩ area).x = 0 ∧
       (addAreaToFlushAreaRect ⟨0, 0, 0, 0⟩ area).y = 0 ∧
       (addAreaToFlushAreaRect ⟨0, 0, 0, 0⟩ area).width = max 0 area.width ∧
       (addAreaToFlushAreaRect ⟨0, 0, 0, 0⟩ area).height = max 0 area.height) ∧
     (areaContains ⟨5, 5, 2, 2⟩ 6 6 ∧
      ¬ areaContains (addAreaToFlushAreaRect ⟨0, 0, 0, 0⟩ ⟨5, 5, 2, 2⟩) 6 6)) :=
  ⟨rfl, successful_unpaused_flush_resets_then_origin_zero c9WitnessBuffer rfl⟩

/-- C10: unpause_updates clears the paused flag before flushing, so even when
the flush's device synchronization fails it returns failure with the context
already unpaused and the dirty area still recorded for a later retry. -/
theorem unpause_clears_flag_even_on_failed_flush (b : PlyVideoBuffer) :
    (ply_video_buffer_unpause_updates b false).1 = false ∧
    (ply_video_buffer_unpause_updates b false).2.is_paused = false ∧
    (ply_video_buffer_unpause_updates b false).2.area_to_flush = b.area_to_flush ∧
    (ply_video_buffer_unpause_updates b true).2.is_paused = false := by
  simp [ply_video_buffer_unpause_updates, ply_video_buffer_flush,
    ply_video_buffer_copy_to_device]

/-- With the value in the red channel only, the device pixel is just the
truncated red value shifted to the red bit position. -/
theorem c8_device_eq (w off v : Nat) (hv : v < 256) :
    ply_video_buffer_pixel_value_to_device_pixel_value (c8Buffer w off)
        (v <<< 16) = (v >>> (8 - w)) <<< off := by
  have hA : ∀ u, u < 256 → ((u <<< 16) >>> 24) &&& 0xff = 0 := by decide
  have hR : ∀ u, u < 256 → ((u <<< 16) >>> 16) &&& 0xff = u := by decide
  have hG : ∀ u, u < 256 → ((u <<< 16) >>> 8) &&& 0xff = 0 := by decide
  have hB : ∀ u, u < 256 → (u <<< 16) &&& 0xff = 0 := by decide
  unfold ply_video_buffer_pixel_value_to_device_pixel_value c8Buffer mkTestBuffer
  simp only [hA v hv, hR v hv, hG v hv, hB v hv]
  simp

/-- C8: converting a canonical pixel whose red channel holds `v` through a
red descriptor of width `w` (1 ≤ w ≤ 8) at any bit offset, then reading the
`w` stored bits back and shifting them up to the high bits of a byte,
reproduces `v` truncated to its high `w` bits with zeros below — the 8-bit
reading of `v & ~((1 << (8-w)) - 1)` is `v &&& (2^8 - 2^(8-w))`. -/
theorem pixel_to_device_truncation_roundtrip (w off v : Nat)
    (h1 : 1 ≤ w) (h2 : w ≤ 8) (hv : v < 256) :
    ((ply_video_buffer_pixel_value_to_device_pixel_value (c8Buffer w off)
        (v <<< 16) >>> off) &&& (2 ^ w - 1)) <<< (8 - w) =
      v &&& (2 ^ 8 - 2 ^ (8 - w)) := by
  rw [c8_device_eq w off v hv, Nat.shiftLeft_shiftRight]
  have key : ∀ w', w' < 9 → 1 ≤ w' → ∀ u, u < 256 →
      ((u >>> (8 - w')) &&& (2 ^ w' - 1)) <<< (8 - w') =
        u &&& (2 ^ 8 - 2 ^ (8 - w')) := by
    decide
  exact key w (by omega) h1 v hv

/-- Witness for C8 with a 5-bit red channel at offset 3 and value 171. -/
theorem pixel_to_device_truncation_roundtrip_witness :
    ((1 : Nat) ≤ 5 ∧ (5 : Nat) ≤ 8 ∧ (171 : Nat) < 256) ∧
    ((ply_video_buffer_pixel_value_to_device_pixel_value (c8Buffer 5 3)
        (171 <<< 16) >>> 3) &&& (2 ^ 5 - 1)) <<< (8 - 5) =
      171 &&& (2 ^ 8 - 2 ^ (8 - 5)) :=
  ⟨⟨by decide, by decide, by decide⟩,
    pixel_to_device_truncation_roundtrip 5 3 171 (by decide) (by decide) (by decide)⟩
